import Mathlib

/-!
# Verification of the shopping-assistant ReAct core

Shallow embedding of the repository's two core modules:

* `tools.py` — the deterministic lookup tools (product search with price-range
  parsing, shipping estimation with date arithmetic, discount codes, return
  policies, competitor prices);
* `react_agent.py` — the action-grammar parser (`parse_tool_calls`), the tool
  executor (`execute_tools`) and the bounded reasoning loop (`react_loop`).

Python strings are embedded as `List Char`, Python numbers as `ℚ` (with an
`Int`/float split only where serialization needs it), Python dicts as
association lists, and functions that can raise as `Except`-valued functions.
All recursion is structural (fuel-indexed where Python iterates over suffixes)
so every definition evaluates inside the kernel.  `datetime.now()` is threaded
through as an explicit `Now` value.  External collaborators (the CPython
runtime's keyword binding, `json.loads`/`json.dumps`, `str.lower`, regex
scanning) are modelled from their documented semantics; everything else is a
direct translation of the repository's source.
-/

/-! ## Basic string utilities (models of Python `str` operations) -/

/-- ASCII lower-casing, the behaviour of Python `str.lower` on the repository's
ASCII-only data. -/
def lowerL (s : List Char) : List Char := s.map Char.toLower

/-- ASCII upper-casing, the behaviour of Python `str.upper` on ASCII data. -/
def upperL (s : List Char) : List Char := s.map Char.toUpper

/-- Python's `str.isspace`/`\s` class for the ASCII whitespace characters. -/
def pyIsSpace (c : Char) : Bool :=
  c == ' ' || c == '\t' || c == '\n' || c == '\r' || c == '\x0b' || c == '\x0c'

/-- Does `p` occur at the head of `s`? -/
def beginsWith : List Char → List Char → Bool
  | [], _ => true
  | _ :: _, [] => false
  | p :: ps, c :: cs => p == c && beginsWith ps cs

/-- Python's substring test `p in s`. -/
def containsSub (p : List Char) : List Char → Bool
  | [] => beginsWith p []
  | c :: cs => beginsWith p (c :: cs) || containsSub p cs

/-- Python `str.split()` with no argument: split on whitespace runs, dropping
empty pieces.  Fuel-indexed so that the recursion is structural; the fuel
`s.length` always suffices because every step consumes at least one
character. -/
def pySplitAux : Nat → List Char → List (List Char)
  | 0, _ => []
  | fuel + 1, s =>
    match s with
    | [] => []
    | c :: t =>
      if pyIsSpace c then pySplitAux fuel t
      else (c :: t.takeWhile (fun x => !pyIsSpace x)) ::
        pySplitAux fuel (t.dropWhile (fun x => !pyIsSpace x))

/-- Python `str.split()` (whitespace splitting). -/
def pySplit (s : List Char) : List (List Char) := pySplitAux s.length s

/-- The decimal digits of a digit string, as a number (Python `int` on an
all-digit string). -/
def digitsToNat (s : List Char) : Nat :=
  s.foldl (fun a c => a * 10 + (c.toNat - 48)) 0

/-- Decimal rendering of a natural number (fuel-indexed, structural). -/
def natDigitsAux : Nat → Nat → List Char
  | 0, _ => []
  | fuel + 1, n =>
    if n < 10 then [Nat.digitChar n]
    else natDigitsAux fuel (n / 10) ++ [Nat.digitChar (n % 10)]

/-- Decimal rendering of a natural number. -/
def natDigits (n : Nat) : List Char := natDigitsAux (n + 1) n

/-- Decimal rendering of an integer. -/
def intChars (i : Int) : List Char :=
  if i < 0 then '-' :: natDigits i.natAbs else natDigits i.natAbs

/-- Association-list lookup: the model of Python `dict` access on the
repository's literal dictionaries (whose keys are distinct). -/
def dictGet {α : Type} (d : List (List Char × α)) (k : List Char) : Option α :=
  match d with
  | [] => none
  | (k', v) :: t => if k = k' then some v else dictGet t k

/-- Join words with single spaces (`' '.join`). -/
def joinSpace (ws : List (List Char)) : List Char := List.intercalate [' '] ws

/-! ## Product search (`tools.py`, `parse_price_range` and
`eccomerce_search_aggregtor`) -/

/-- One record of the mock product database. -/
structure Product where
  name : List Char
  color : List Char
  price : ℚ
  size : List Char
  in_stock : Bool
  store : List Char
  delivery : List Char
deriving DecidableEq

def floralSkirt : Product :=
  ⟨"Floral Skirt".toList, "multi".toList, 35, "S".toList, true, "SiteA".toList, "3-day".toList⟩
def whiteSneakers : Product :=
  ⟨"White Sneakers".toList, "white".toList, 65, "8".toList, true, "SiteB".toList, "2-day".toList⟩
def casualDenimJacket : Product :=
  ⟨"Casual Denim Jacket".toList, "blue".toList, 80, "M".toList, true, "SiteA".toList, "2-day".toList⟩
def cocktailDress : Product :=
  ⟨"Cocktail Dress".toList, "red".toList, 120, "M".toList, true, "SiteB".toList, "4-day".toList⟩
def summerFloralDress : Product :=
  ⟨"Summer Floral Dress".toList, "yellow".toList, 75, "S".toList, true, "SiteC".toList, "3-day".toList⟩
def classicWhiteSneakers : Product :=
  ⟨"Classic White Sneakers".toList, "white".toList, 55, "8".toList, true, "SiteA".toList, "5-day".toList⟩
def vintageDenimJacket : Product :=
  ⟨"Vintage Denim Jacket".toList, "blue".toList, 75, "M".toList, true, "SiteC".toList, "2-day".toList⟩
def sportWhiteSneakers : Product :=
  ⟨"Sport White Sneakers".toList, "white".toList, 65, "8".toList, true, "SiteB".toList, "2-day".toList⟩
def canvasWhiteSneakers : Product :=
  ⟨"Canvas White Sneakers".toList, "white".toList, ⟨4599, 100, by decide, by decide⟩,
   "8".toList, true, "SiteC".toList, "3-day".toList⟩

/-- The mock product database of `eccomerce_search_aggregtor`, in source
order. -/
def products : List Product :=
  [floralSkirt, whiteSneakers, casualDenimJacket, cocktailDress, summerFloralDress,
   classicWhiteSneakers, vintageDenimJacket, sportWhiteSneakers, canvasWhiteSneakers]

/-- The possible runtime types of the `price_range` argument: a 2-tuple, a
bare number (Python `int`/`float`), or a string. -/
inductive PriceQuery where
  | tup (lo hi : ℚ)
  | num (n : ℚ)
  | str (s : List Char)
deriving DecidableEq

/-- Python truthiness of a `price_range` value: `0`, `0.0` and `""` are falsy;
a 2-tuple is always truthy. -/
def pqFalsy : PriceQuery → Bool
  | .tup _ _ => false
  | .num n => decide (n = 0)
  | .str s => s.isEmpty

/-- Model of Python `float()` restricted to strings of digits and dots (the
only shape `parse_price_range` ever feeds it): no dot gives an integer, one
dot gives a decimal provided at least one digit is present, anything else
raises `ValueError` (`none`). -/
def pyFloat (s : List Char) : Option ℚ :=
  if s = [] then none
  else
    match s.splitOn '.' with
    | [ip] => some (digitsToNat ip)
    | [ip, fp] =>
      if ip = [] ∧ fp = [] then none
      else some ((digitsToNat ip : ℚ) + (digitsToNat fp : ℚ) / ((10 : ℚ) ^ fp.length))
    | _ => none

/-- Model of `[float(n) for n in toks]`: `none` as soon as one token fails. -/
def floatList : List (List Char) → Option (List ℚ)
  | [] => some []
  | t :: ts =>
    match pyFloat t, floatList ts with
    | some v, some vs => some (v :: vs)
    | _, _ => none

def listMin : List ℚ → ℚ
  | [] => 0
  | x :: t => t.foldl min x

def listMax : List ℚ → ℚ
  | [] => 0
  | x :: t => t.foldl max x

/-- The function `parse_price_range` from `tools.py`: tuples pass through, numbers become
`(0, n)`, strings are matched against the "under N"/"less than N" and
"between N and M" patterns; everything else is `None`. -/
def parse_price_range (pq : PriceQuery) : Option (ℚ × ℚ) :=
  match pq with
  | .tup lo hi => some (lo, hi)
  | .num n => some (0, n)
  | .str s =>
    let query := lowerL s
    if containsSub ("under".toList) query || containsSub ("less than".toList) query then
      match pyFloat (query.filter (fun c => c.isDigit || c == '.')) with
      | some v => some (0, v)
      | none => none
    else if containsSub ("between".toList) query then
      match floatList (pySplit (query.filter (fun c => c.isDigit || c == '.' || c == ' '))) with
      | some ns => if 2 ≤ ns.length then some (listMin ns, listMax ns) else none
      | none => none
    else none

/-- The name filter of the search loop.  The source joins the *set* of the
product's words with spaces and tests `term in joined`; since every search
term comes from `str.split()` it contains no space, so membership does not
depend on the set's iteration order and the words are joined in list order
here. -/
def matchesName (name : Option (List Char)) (p : Product) : Bool :=
  match name with
  | none => true
  | some n =>
    if n = [] then true
    else (pySplit (lowerL n)).any
      (fun term => containsSub term (joinSpace (pySplit (lowerL p.name))))

def matchesColor (color : Option (List Char)) (p : Product) : Bool :=
  match color with
  | none => true
  | some c => if c = [] then true else lowerL c == lowerL p.color

def matchesSize (size : Option (List Char)) (p : Product) : Bool :=
  match size with
  | none => true
  | some s => if s = [] then true else upperL s == upperL p.size

/-- The price filter: a falsy `price_range` argument skips the filter
entirely (Python `if price_range:`); a truthy one is parsed, an unparseable
one (`None` result) drops every record. -/
def matchesPrice (pr : Option PriceQuery) (p : Product) : Bool :=
  match pr with
  | none => true
  | some pq =>
    if pqFalsy pq then true
    else
      match parse_price_range pq with
      | some (lo, hi) => decide (lo ≤ p.price) && decide (p.price ≤ hi)
      | none => false

def matchesStore (store : Option (List Char)) (p : Product) : Bool :=
  match store with
  | none => true
  | some s => if s = [] then true else lowerL s == lowerL p.store

def matchesStock (in_stock : Option Bool) (p : Product) : Bool :=
  match in_stock with
  | none => true
  | some b => p.in_stock == b

/-- The function `eccomerce_search_aggregtor` from `tools.py`: filter the mock database by
the given criteria, in the source's check order (name, color, size, price,
store, stock).  The `delivery` parameter exists in the source but is never
used by the filter.  The Python function returns the JSON serialization of
this list; serialization is applied by the executor wrapper below. -/
def eccomerce_search_aggregtor (name color : Option (List Char))
    (price_range : Option PriceQuery) (size : Option (List Char))
    (in_stock : Option Bool) (store : Option (List Char))
    (delivery : Option (List Char)) : List Product :=
  products.filter (fun p =>
    matchesName name p && matchesColor color p && matchesSize size p &&
    matchesPrice price_range p && matchesStore store p && matchesStock in_stock p)

/-! ## Calendar arithmetic (model of the `datetime` collaborator) -/

/-- A Gregorian calendar date. -/
structure Ymd where
  year : Nat
  month : Nat
  day : Nat
deriving DecidableEq

def isLeap (y : Nat) : Bool := y % 4 = 0 && (y % 100 ≠ 0 || y % 400 = 0)

def daysInMonth (y m : Nat) : Nat :=
  if m = 2 then (if isLeap y then 29 else 28)
  else if m = 4 ∨ m = 6 ∨ m = 9 ∨ m = 11 then 30
  else 31

def nextDay (d : Ymd) : Ymd :=
  if d.day < daysInMonth d.year d.month then ⟨d.year, d.month, d.day + 1⟩
  else if d.month < 12 then ⟨d.year, d.month + 1, 1⟩
  else ⟨d.year + 1, 1, 1⟩

/-- Addition of n days, as in `date + timedelta` with n days. -/
def dateAfter (d : Ymd) : Nat → Ymd
  | 0 => d
  | n + 1 => nextDay (dateAfter d n)

/-- Day count of a Gregorian date from the civil epoch (days-from-civil
algorithm restricted to positive years, which is all the program uses). -/
def toDays (d : Ymd) : Nat :=
  let y := if d.month ≤ 2 then d.year - 1 else d.year
  let era := y / 400
  let yoe := y % 400
  let mp := (d.month + 9) % 12
  let doy := (153 * mp + 2) / 5 + (d.day - 1)
  let doe := yoe * 365 + yoe / 4 - yoe / 100 + doy
  era * 146097 + doe

/-- Python `datetime.weekday()`: Monday is `0` … Sunday is `6`.  The offset is
calibrated so that 1970-01-01 is a Thursday (`3`). -/
def weekdayOf (d : Ymd) : Nat := (toDays d + 2) % 7

/-- A point in time, as `datetime.now()` exposes it to the program: the civil
date plus the time of day (seconds after midnight; `datetime` comparisons are
lexicographic in date then time). -/
structure Now where
  date : Ymd
  tod : Nat
deriving DecidableEq

def ymdLt (a b : Ymd) : Bool :=
  a.year < b.year || (a.year == b.year &&
    (a.month < b.month || (a.month == b.month && a.day < b.day)))

/-- The `datetime` order: lexicographic in date, then time of day. -/
def dtLe (a b : Ymd × Nat) : Bool :=
  ymdLt a.1 b.1 || (a.1 == b.1 && a.2 ≤ b.2)

def weekdayNames : List (List Char) :=
  ["Monday".toList, "Tuesday".toList, "Wednesday".toList, "Thursday".toList,
   "Friday".toList, "Saturday".toList, "Sunday".toList]

def monthNames : List (List Char) :=
  ["January".toList, "February".toList, "March".toList, "April".toList,
   "May".toList, "June".toList, "July".toList, "August".toList,
   "September".toList, "October".toList, "November".toList, "December".toList]

def pad2 (n : Nat) : List Char := if n < 10 then '0' :: natDigits n else natDigits n

/-- Rendering of `strftime` with format "%A, %B %d": full weekday name, full month name, zero-padded
day of month. -/
def strftimeAD (d : Ymd) : List Char :=
  (weekdayNames.getD (weekdayOf d) []) ++ ", ".toList ++
    (monthNames.getD (d.month - 1) []) ++ " ".toList ++ pad2 d.day

/-! ## Python runtime values (for dict-shaped tool results) -/

/-- Python values as they appear in the tool results: strings, ints, floats,
booleans, lists and string-keyed dicts.  Floats are carried as rationals; the
`vint`/`vflt` split only matters for serialization. -/
inductive PyV where
  | vstr (s : List Char)
  | vint (i : Int)
  | vflt (q : ℚ)
  | vbool (b : Bool)
  | vlist (xs : List PyV)
  | vdict (fields : List (List Char × PyV))

/-- Python truthiness of a `PyV` (empty dict/list/string, zero and `False` are
falsy). -/
def pyFalsy : PyV → Bool
  | .vstr s => s.isEmpty
  | .vint i => i == 0
  | .vflt q => decide (q = 0)
  | .vbool b => !b
  | .vlist xs => xs.isEmpty
  | .vdict fs => fs.isEmpty

/-- Model of `dict.update`: keys already present are overwritten in place, new keys are
appended in the update's order. -/
def dictUpdate (d upd : List (List Char × PyV)) : List (List Char × PyV) :=
  d.map (fun kv => match dictGet upd kv.1 with | some v => (kv.1, v) | none => kv) ++
    upd.filter (fun kv => (dictGet d kv.1).isNone)

/-! ## Shipping estimation (`tools.py`, `shipping_time_estimator`) -/

/-- Index of a string in a list of strings (`list.index`, total here because
it is only called after a membership test). -/
def idxOf (x : List Char) : List (List Char) → Nat
  | [] => 0
  | y :: t => if x = y then 0 else idxOf x t + 1

/-- The lower-case weekday names of `calculate_delivery_feasibility`. -/
def dayNamesLower : List (List Char) :=
  ["monday".toList, "tuesday".toList, "wednesday".toList, "thursday".toList,
   "friday".toList, "saturday".toList, "sunday".toList]

/-- The function `calculate_delivery_feasibility` from `tools.py`.  The ordinal branch is
taken whenever the lowered target contains any of the substrings
"st"/"nd"/"rd"/"th"; inside it, both `int('')` (no digits) and an invalid
`datetime(year, month, day)` raise `ValueError`, which the source converts to
the `{"error": "Invalid date specified"}` dict.  The weekday branch computes
the next occurrence of the named day strictly after today.  Note that the
ordinal target date is a midnight `datetime` while `today + timedelta` keeps
the current time of day, so the comparison is lexicographic. -/
def calculate_delivery_feasibility (days_needed : Nat) (target0 : List Char)
    (now : Now) : PyV :=
  let target := lowerL target0
  if containsSub ("st".toList) target || containsSub ("nd".toList) target ||
      containsSub ("rd".toList) target || containsSub ("th".toList) target then
    let ds := target.filter Char.isDigit
    if ds = [] then PyV.vdict [("error".toList, PyV.vstr ("Invalid date specified".toList))]
    else
      let target_day := digitsToNat ds
      let ym :=
        if target_day < now.date.day then
          (if now.date.month = 12 then (now.date.year + 1, 1)
           else (now.date.year, now.date.month + 1))
        else (now.date.year, now.date.month)
      if target_day = 0 ∨ daysInMonth ym.1 ym.2 < target_day then
        PyV.vdict [("error".toList, PyV.vstr ("Invalid date specified".toList))]
      else
        let target_date : Ymd := ⟨ym.1, ym.2, target_day⟩
        let delivery_date := dateAfter now.date days_needed
        PyV.vdict
          [("can_deliver".toList, PyV.vbool (dtLe (delivery_date, now.tod) (target_date, 0))),
           ("estimated_delivery".toList, PyV.vstr (strftimeAD delivery_date)),
           ("requested_date".toList, PyV.vstr (strftimeAD target_date))]
  else if target ∈ dayNamesLower then
    let current_day_idx : Int := weekdayOf now.date
    let target_day_idx : Int := idxOf target dayNamesLower
    let d0 := target_day_idx - current_day_idx
    let days_until_target := if d0 ≤ 0 then d0 + 7 else d0
    let delivery_date := dateAfter now.date days_needed
    let target_date := dateAfter now.date days_until_target.toNat
    PyV.vdict
      [("can_deliver".toList, PyV.vbool (dtLe (delivery_date, now.tod) (target_date, now.tod))),
       ("estimated_delivery".toList, PyV.vstr (strftimeAD delivery_date)),
       ("requested_date".toList, PyV.vstr (strftimeAD target_date))]
  else PyV.vdict [("error".toList, PyV.vstr ("Invalid delivery target specified".toList))]

/-- Model of `int(s)` on a decimal string (model: digits only; anything else is a
`ValueError`). -/
def pyIntStr (s : List Char) : Option Nat :=
  if s ≠ [] ∧ s.all Char.isDigit then some (digitsToNat s) else none

/-- The helper `parse_delivery_days`: `int(delivery_str.split('-')[0])`. -/
def parse_delivery_days (s : List Char) : Option Nat :=
  pyIntStr (s.takeWhile (fun c => !(c == '-')))

/-- A `{"estimated_delivery": …, "cost": …}` entry of the shipping table. -/
def sEnt (d : String) (cents : Int) : PyV :=
  PyV.vdict [("estimated_delivery".toList, PyV.vstr d.toList),
             ("cost".toList, PyV.vflt (cents : ℚ))]

/-- The `shipping_info` literal of `shipping_time_estimator`.  Only the orphan
key "Summer Floral Skirt" (which matches no product in the database) carries
the per-ZIP layout with a "default" entry; every real product's store entry is
a flat `{"estimated_delivery", "cost"}` dict.  Costs are scaled by 100 here
(4.99 is carried as 499) purely to keep the rationals kernel-reducible; no
claim depends on the cost values. -/
def shipping_info : List (List Char × PyV) :=
  [("Summer Floral Skirt".toList, PyV.vdict
      [("SiteA".toList, PyV.vdict
          [("12345".toList, sEnt ("2-day") 499), ("67890".toList, sEnt ("3-day") 599),
           ("default".toList, sEnt ("3-day") 499)]),
       ("SiteB".toList, PyV.vdict
          [("12345".toList, sEnt ("3-day") 599), ("67890".toList, sEnt ("4-day") 699),
           ("default".toList, sEnt ("4-day") 599)]),
       ("SiteC".toList, PyV.vdict
          [("12345".toList, sEnt ("2-day") 499), ("67890".toList, sEnt ("3-day") 599),
           ("default".toList, sEnt ("3-day") 499)])]),
   ("White Sneakers".toList, PyV.vdict
      [("SiteA".toList, sEnt ("3-day") 599), ("SiteB".toList, sEnt ("2-day") 499),
       ("SiteC".toList, sEnt ("3-day") 499)]),
   ("Casual Denim Jacket".toList, PyV.vdict
      [("SiteA".toList, sEnt ("2-day") 599), ("SiteB".toList, sEnt ("3-day") 699),
       ("SiteC".toList, sEnt ("3-day") 599)]),
   ("Cocktail Dress".toList, PyV.vdict
      [("SiteA".toList, sEnt ("3-day") 699), ("SiteB".toList, sEnt ("4-day") 799),
       ("SiteC".toList, sEnt ("3-day") 699)]),
   ("Summer Floral Dress".toList, PyV.vdict
      [("SiteA".toList, sEnt ("3-day") 499), ("SiteB".toList, sEnt ("3-day") 599),
       ("SiteC".toList, sEnt ("3-day") 499)]),
   ("Classic White Sneakers".toList, PyV.vdict
      [("SiteA".toList, sEnt ("5-day") 499), ("SiteB".toList, sEnt ("3-day") 599),
       ("SiteC".toList, sEnt ("4-day") 499)]),
   ("Vintage Denim Jacket".toList, PyV.vdict
      [("SiteA".toList, sEnt ("3-day") 599), ("SiteB".toList, sEnt ("3-day") 699),
       ("SiteC".toList, sEnt ("2-day") 599)]),
   ("Sport White Sneakers".toList, PyV.vdict
      [("SiteA".toList, sEnt ("3-day") 599), ("SiteB".toList, sEnt ("2-day") 499),
       ("SiteC".toList, sEnt ("3-day") 499)]),
   ("Canvas White Sneakers".toList, PyV.vdict
      [("SiteA".toList, sEnt ("4-day") 499), ("SiteB".toList, sEnt ("3-day") 599),
       ("SiteC".toList, sEnt ("3-day") 499)])]

/-- Rendering of the `zip_code` argument inside the f-string
`"Shipping not available to ZIP code {zip_code}"` (Python renders `None` as
the text `None`). -/
def zipRepr : Option (List Char) → List Char
  | none => "None".toList
  | some z => z

/-- The function `shipping_time_estimator` from `tools.py`.  Returns `Except` because the
Python function can raise (a non-dict `zip_shipping` is indexed with a string,
a malformed delivery string fails `int()`); those exceptions propagate to the
executor.  All normal returns, including the error dicts the function builds
itself, are `.ok`. -/
def shipping_time_estimator (product_name : List Char)
    (delivery_target zip_code : Option (List Char)) (now : Now) :
    Except (List Char) PyV :=
  match eccomerce_search_aggregtor (some product_name) none none none none none none with
  | [] => .ok (PyV.vdict [("error".toList, PyV.vstr ("Product not found".toList))])
  | product :: _ =>
    let store := product.store
    match parse_delivery_days product.delivery with
    | none => .error ("ValueError: invalid literal for int()".toList)
    | some _ =>
      let store_shipping :=
        match dictGet shipping_info product.name with
        | some (PyV.vdict byStore) =>
          (match dictGet byStore store with
           | some (PyV.vdict sd) => PyV.vdict sd
           | some v => v
           | none => PyV.vdict [])
        | _ => PyV.vdict []
      if pyFalsy store_shipping then
        .ok (PyV.vdict [("error".toList, PyV.vstr ("Shipping information not available".toList))])
      else
        let zip_shipping :=
          match store_shipping with
          | PyV.vdict sd =>
            (match zip_code.bind (fun z => dictGet sd z) with
             | some v => v
             | none => (match dictGet sd ("default".toList) with
                        | some v => v
                        | none => PyV.vdict []))
          | v => v
        if pyFalsy zip_shipping then
          .ok (PyV.vdict [("error".toList,
            PyV.vstr ("Shipping not available to ZIP code ".toList ++ zipRepr zip_code))])
        else
          match zip_shipping with
          | PyV.vdict zs =>
            (match dictGet zs ("estimated_delivery".toList) with
             | some (PyV.vstr ds) =>
               (match parse_delivery_days ds with
                | none => .error ("ValueError: invalid literal for int()".toList)
                | some delivery_days =>
                  match delivery_target with
                  | none => .ok (PyV.vdict zs)
                  | some tgt =>
                    if tgt = [] then .ok (PyV.vdict zs)
                    else
                      let fz := calculate_delivery_feasibility delivery_days tgt now
                      let updated :=
                        match fz with
                        | PyV.vdict fs => dictUpdate zs fs
                        | _ => zs
                      let updated2 :=
                        match zip_code with
                        | some z =>
                          if z = [] then updated
                          else dictUpdate updated [("zip_code".toList, PyV.vstr z)]
                        | none => updated
                      .ok (PyV.vdict updated2))
             | some _ => .error ("AttributeError: split".toList)
             | none => .error ("KeyError: estimated_delivery".toList))
          | _ => .error ("TypeError: string indices must be integers".toList)

/-! ## Discount codes (`tools.py`, `discount_promo_checker`) -/

/-- The discount table of `discount_promo_checker`, in source order; values
are code → percent mappings. -/
def discounts : List (List Char × List (List Char × Nat)) :=
  [("Floral Skirt".toList,
      [("SPRING10".toList, 10), ("SAVE20".toList, 20), ("NEW15".toList, 15)]),
   ("White Sneakers".toList, [("SHOES15".toList, 15), ("NEW10".toList, 10)]),
   ("Casual Denim Jacket".toList, [("DENIM10".toList, 10), ("SAVE20".toList, 20)]),
   ("Cocktail Dress".toList, [("PARTY25".toList, 25), ("NEW15".toList, 15)]),
   ("Summer Floral Dress".toList, [("SUMMER".toList, 15), ("NEW10".toList, 10)]),
   ("Classic White Sneakers".toList, [("SHOES15".toList, 15), ("NEW10".toList, 10)]),
   ("Vintage Denim Jacket".toList, [("DENIM10".toList, 10), ("SAVE20".toList, 20)]),
   ("Sport White Sneakers".toList, [("SHOES15".toList, 15), ("NEW10".toList, 10)]),
   ("Canvas White Sneakers".toList, [("SHOES10".toList, 10), ("NEW10".toList, 10)])]

/-- The function `discount_promo_checker` from `tools.py`: `discounts.get(product_name, {})`
— an exact, case-sensitive dict lookup. -/
def discount_promo_checker (product_name : List Char) : List (List Char × Nat) :=
  match dictGet discounts product_name with
  | some m => m
  | none => []

/-! ## Return policies (`tools.py`, `return_policy_checker`) -/

/-- The fixed per-store policy dicts. -/
def policies : List (List Char × PyV) :=
  [("SiteA".toList, PyV.vdict
      [("window".toList, PyV.vstr ("30 days".toList)),
       ("free_returns".toList, PyV.vbool true),
       ("conditions".toList, PyV.vstr ("Must have original tags".toList)),
       ("processing_time".toList, PyV.vstr ("3-5 business days".toList))]),
   ("SiteB".toList, PyV.vdict
      [("window".toList, PyV.vstr ("14 days".toList)),
       ("free_returns".toList, PyV.vbool false),
       ("conditions".toList, PyV.vstr ("Return shipping fee applies".toList)),
       ("processing_time".toList, PyV.vstr ("5-7 business days".toList))]),
   ("SiteC".toList, PyV.vdict
      [("window".toList, PyV.vstr ("45 days".toList)),
       ("free_returns".toList, PyV.vbool true),
       ("conditions".toList, PyV.vstr ("Items must be unworn with tags attached".toList)),
       ("processing_time".toList, PyV.vstr ("2-4 business days".toList))])]

/-- The product-scanning loop of `return_policy_checker`: the first searched
product whose (lowered) name contains the (lowered) query resolves to its
store's policy (`policies.get(store, error)`). -/
def rpcScan (store_name : List Char) : List Product → Option PyV
  | [] => none
  | p :: rest =>
    if containsSub (lowerL store_name) (lowerL p.name) then
      some (match dictGet policies p.store with
            | some d => d
            | none => PyV.vdict [("error".toList, PyV.vstr ("Store not found".toList))])
    else rpcScan store_name rest

/-- The function `return_policy_checker` from `tools.py`: a known store name returns its
policy directly; otherwise the name is searched as a product and resolved to
the product's store; if nothing matches, the final lookup falls through to the
error dict. -/
def return_policy_checker (store_name : List Char) : PyV :=
  match dictGet policies store_name with
  | some p => p
  | none =>
    match rpcScan store_name
        (eccomerce_search_aggregtor (some store_name) none none none none none none) with
    | some r => r
    | none => PyV.vdict [("error".toList, PyV.vstr ("Store not found".toList))]

/-! ## Competitor prices (`tools.py`, `competitor_price_comparison`) -/

/-- One `{store, price, in_stock}` comparison entry; prices are carried in
cents so the rationals remain kernel-reducible. -/
def cEnt (store : String) (cents : Int) : PyV :=
  PyV.vdict [("store".toList, PyV.vstr store.toList),
             ("price".toList, PyV.vflt (cents : ℚ)),
             ("in_stock".toList, PyV.vbool true)]

/-- The comparison table of `competitor_price_comparison`, in source order. -/
def comparisons : List (List Char × List PyV) :=
  [("Floral Skirt".toList, [cEnt ("SiteA") 3500, cEnt ("SiteB") 3799, cEnt ("SiteC") 3650]),
   ("White Sneakers".toList, [cEnt ("SiteA") 6399, cEnt ("SiteB") 6500, cEnt ("SiteC") 6799]),
   ("Casual Denim Jacket".toList, [cEnt ("SiteA") 8000, cEnt ("SiteB") 8599, cEnt ("SiteC") 8299]),
   ("Cocktail Dress".toList, [cEnt ("SiteA") 11899, cEnt ("SiteB") 12000, cEnt ("SiteC") 12299]),
   ("Summer Floral Dress".toList, [cEnt ("SiteA") 7299, cEnt ("SiteB") 7799, cEnt ("SiteC") 7500]),
   ("Classic White Sneakers".toList, [cEnt ("SiteA") 5500, cEnt ("SiteB") 5799, cEnt ("SiteC") 5650]),
   ("Vintage Denim Jacket".toList, [cEnt ("SiteA") 7799, cEnt ("SiteB") 7500, cEnt ("SiteC") 7500]),
   ("Sport White Sneakers".toList, [cEnt ("SiteA") 6799, cEnt ("SiteB") 6500, cEnt ("SiteC") 6650]),
   ("Canvas White Sneakers".toList, [cEnt ("SiteA") 4799, cEnt ("SiteB") 4650, cEnt ("SiteC") 4599])]

/-- The function `competitor_price_comparison` from `tools.py`: the first key whose lowered
text equals the lowered input returns its entries; otherwise the empty
list. -/
def competitor_price_comparison (product_name : List Char) : List PyV :=
  match comparisons.find? (fun kv => lowerL kv.1 == lowerL product_name) with
  | some kv => kv.2
  | none => []

/-! ## JSON decoding (model of the `json.loads` collaborator)

`parse_tool_calls` hands each captured parameter literal to `json.loads`.
The decoder below implements the JSON grammar the action format uses:
objects, arrays, strings with the standard escapes, integer numbers, booleans
and null.  Float literals (fraction/exponent parts) are outside the scope of
this shallow embedding and are rejected; no claim depends on them.  Duplicate
object keys are kept in order (the repository's tool parameters never repeat
a key, so dict-level de-duplication is unobservable here). -/

/-- A decoded JSON value. -/
inductive Json where
  | null
  | bool (b : Bool)
  | num (n : Int)
  | str (s : List Char)
  | arr (elems : List Json)
  | obj (fields : List (List Char × Json))

/-- JSON inter-token whitespace. -/
def jsonWs (c : Char) : Bool := c == ' ' || c == '\t' || c == '\n' || c == '\r'

def skipWs (s : List Char) : List Char := s.dropWhile jsonWs

def hexVal (c : Char) : Option Nat :=
  if c.isDigit then some (c.toNat - 48)
  else if 'a' ≤ c ∧ c ≤ 'f' then some (c.toNat - 87)
  else if 'A' ≤ c ∧ c ≤ 'F' then some (c.toNat - 55)
  else none

/-- The body of a JSON string after the opening quote: returns the decoded
characters and the input after the closing quote.  Unescaped control
characters are rejected, as in `json.loads`'s strict mode. -/
def parseStringBody : List Char → Option (List Char × List Char)
  | [] => none
  | '"' :: r => some ([], r)
  | '\\' :: r =>
    match r with
    | '"' :: r2 => (parseStringBody r2).map (fun p => ('"' :: p.1, p.2))
    | '\\' :: r2 => (parseStringBody r2).map (fun p => ('\\' :: p.1, p.2))
    | '/' :: r2 => (parseStringBody r2).map (fun p => ('/' :: p.1, p.2))
    | 'b' :: r2 => (parseStringBody r2).map (fun p => ('\x08' :: p.1, p.2))
    | 'f' :: r2 => (parseStringBody r2).map (fun p => ('\x0c' :: p.1, p.2))
    | 'n' :: r2 => (parseStringBody r2).map (fun p => ('\n' :: p.1, p.2))
    | 'r' :: r2 => (parseStringBody r2).map (fun p => ('\r' :: p.1, p.2))
    | 't' :: r2 => (parseStringBody r2).map (fun p => ('\t' :: p.1, p.2))
    | 'u' :: a :: b :: c :: d :: r2 =>
      (match hexVal a, hexVal b, hexVal c, hexVal d with
       | some ha, some hb, some hc, some hd =>
         let n := ((ha * 16 + hb) * 16 + hc) * 16 + hd
         (parseStringBody r2).map (fun p => (Char.ofNat n :: p.1, p.2))
       | _, _, _, _ => none)
    | _ => none
  | c :: r =>
    if c.toNat < 32 then none
    else (parseStringBody r).map (fun p => (c :: p.1, p.2))

/-- An unsigned JSON integer: `0`, or a nonzero digit followed by digits;
leading zeros, fractions and exponents are rejected. -/
def parseUNum : List Char → Option (Nat × List Char)
  | [] => none
  | c :: r =>
    if c == '0' then
      match r with
      | d :: _ =>
        if d.isDigit || d == '.' || d == 'e' || d == 'E' then none else some (0, r)
      | [] => some (0, [])
    else if c.isDigit then
      let ds := c :: r.takeWhile Char.isDigit
      let rest := r.dropWhile Char.isDigit
      match rest with
      | d :: _ => if d == '.' || d == 'e' || d == 'E' then none else some (digitsToNat ds, rest)
      | [] => some (digitsToNat ds, [])
    else none

/-- A JSON number (integer restriction, see the section comment). -/
def parseNum : List Char → Option (Int × List Char)
  | '-' :: r => (parseUNum r).map (fun p => (-(p.1 : Int), p.2))
  | s => (parseUNum s).map (fun p => ((p.1 : Int), p.2))

mutual

/-- A JSON value after optional leading whitespace (fuel-indexed; the fuel
bounds the nesting depth, and `json_loads` supplies `length + 1`, which always
suffices because each nesting level consumes at least one character). -/
def parseVal : Nat → List Char → Option (Json × List Char)
  | 0, _ => none
  | fuel + 1, s0 =>
    match skipWs s0 with
    | 't' :: 'r' :: 'u' :: 'e' :: r => some (.bool true, r)
    | 'f' :: 'a' :: 'l' :: 's' :: 'e' :: r => some (.bool false, r)
    | 'n' :: 'u' :: 'l' :: 'l' :: r => some (.null, r)
    | '"' :: r =>
      (match parseStringBody r with
       | some (cs, rest) => some (.str cs, rest)
       | none => none)
    | '{' :: r =>
      (match skipWs r with
       | '}' :: rest => some (.obj [], rest)
       | r1 =>
         match parseMembers fuel r1 with
         | some (fs, rest) => some (.obj fs, rest)
         | none => none)
    | '[' :: r =>
      (match skipWs r with
       | ']' :: rest => some (.arr [], rest)
       | r1 =>
         match parseElems fuel r1 with
         | some (es, rest) => some (.arr es, rest)
         | none => none)
    | s =>
      (match parseNum s with
       | some (n, rest) => some (.num n, rest)
       | none => none)

/-- One or more `"key": value` members followed by `}`. -/
def parseMembers : Nat → List Char → Option (List (List Char × Json) × List Char)
  | 0, _ => none
  | fuel + 1, s =>
    match skipWs s with
    | '"' :: r =>
      (match parseStringBody r with
       | some (key, r1) =>
         (match skipWs r1 with
          | ':' :: r2 =>
            (match parseVal fuel r2 with
             | some (v, r3) =>
               (match skipWs r3 with
                | ',' :: r4 =>
                  (match parseMembers fuel r4 with
                   | some (fs, rest) => some ((key, v) :: fs, rest)
                   | none => none)
                | '}' :: rest => some ([(key, v)], rest)
                | _ => none)
             | none => none)
          | _ => none)
       | none => none)
    | _ => none

/-- One or more array elements followed by `]`. -/
def parseElems : Nat → List Char → Option (List Json × List Char)
  | 0, _ => none
  | fuel + 1, s =>
    match parseVal fuel s with
    | some (v, r1) =>
      (match skipWs r1 with
       | ',' :: r2 =>
         (match parseElems fuel r2 with
          | some (es, rest) => some (v :: es, rest)
          | none => none)
       | ']' :: rest => some ([v], rest)
       | _ => none)
    | none => none

end

/-- Model of `json.loads`: decode one value and require only whitespace after it. -/
def json_loads (s : List Char) : Option Json :=
  match parseVal (s.length + 1) s with
  | some (v, rest) => if skipWs rest = [] then some v else none
  | none => none

/-! ## The action grammar (`react_agent.py`, `parse_tool_calls`)

The source scans the model text with the DOTALL pattern
`\[\[CALL (\w+),\s*(\{.*?\})\]\]` via `re.findall`.  The scanner below
reproduces that search: at each position it tries to match the literal header,
a nonempty greedy word run, a comma, a greedy whitespace run, an opening
brace, then the *lazy* body — the shortest stretch of arbitrary characters
(newlines included) up to the first brace immediately followed by the two
closing square brackets.  On success the scan resumes after the match; on
failure it advances one character, exactly as the regex engine does. -/

/-- The `\w` class (ASCII range; the repository's tool names are ASCII). -/
def isWordChar (c : Char) : Bool := c.isAlphanum || c == '_'

/-- Strip an expected literal from the head of the input. -/
def dropLit : List Char → List Char → Option (List Char)
  | [], s => some s
  | _ :: _, [] => none
  | p :: ps, c :: cs => if c == p then dropLit ps cs else none

/-- Is the head of the input the closer `}]]`? -/
def stopHere (l : List Char) : Bool :=
  match l with
  | a :: b :: c :: _ => a == '}' && b == ']' && c == ']'
  | _ => false

/-- Does `}]]` occur anywhere in the input? -/
def hasStop : List Char → Bool
  | [] => false
  | c :: t => stopHere (c :: t) || hasStop t

/-- The lazy body match after the opening brace: the characters up to the
first `}]]`, and the input after that closer. -/
def findBody : List Char → Option (List Char × List Char)
  | [] => none
  | c :: t =>
    if stopHere (c :: t) then some ([], t.drop 2)
    else
      match findBody t with
      | some (inner, rest) => some (c :: inner, rest)
      | none => none

/-- Attempt the action pattern at the current position.  On success, returns
the tool-name capture, the parameter-object capture (braces included) and the
input after the match. -/
def tryMatch (s : List Char) : Option (List Char × List Char × List Char) :=
  match dropLit ("[[CALL ".toList) s with
  | none => none
  | some r0 =>
    let w := r0.takeWhile isWordChar
    if w = [] then none
    else
      match r0.dropWhile isWordChar with
      | [] => none
      | x :: r2 =>
        if x = ',' then
          match r2.dropWhile pyIsSpace with
          | [] => none
          | y :: r4 =>
            if y = '{' then
              match findBody r4 with
              | some (inner, rest) => some (w, '{' :: (inner ++ ['}']), rest)
              | none => none
            else none
        else none

/-- The `re.findall` scan (fuel-indexed; `findall` supplies the input length,
which suffices because both continuations consume at least one character). -/
def scanAux : Nat → List Char → List (List Char × List Char)
  | 0, _ => []
  | fuel + 1, s =>
    match s with
    | [] => []
    | _ :: rest =>
      match tryMatch s with
      | some (nm, ps, rem) => (nm, ps) :: scanAux fuel rem
      | none => scanAux fuel rest

/-- All pattern matches of the action grammar, in text order. -/
def findall (s : List Char) : List (List Char × List Char) := scanAux s.length s

/-- The function `parse_tool_calls` from `react_agent.py` (the self-critique variant's copy
is identical): decode each captured parameter literal with `json.loads`,
keeping the `(tool_name, params)` pairs whose literal decodes and dropping —
without raising — those whose decode fails. -/
def parse_tool_calls (text : List Char) : List (List Char × Json) :=
  (findall text).filterMap (fun m => (json_loads m.2).map (fun v => (m.1, v)))

/-! ## Serialization (models of `json.dumps` and Python `repr`)

The executor returns `json.dumps` of each tool's structured result, and the
loop embeds `f"{params}"` (the dict's `repr`) into the transcript.  Both
renderings are opaque text to every claim; they are modelled here so that the
executor and loop definitions are complete.  The int/float distinction of the
source's literals is carried only approximately (integral floats render
without a trailing `.0`), which affects no claim. -/

def jsonEscape : List Char → List Char
  | [] => []
  | c :: t =>
    if c == '"' then '\\' :: '"' :: jsonEscape t
    else if c == '\\' then '\\' :: '\\' :: jsonEscape t
    else if c == '\n' then '\\' :: 'n' :: jsonEscape t
    else if c == '\t' then '\\' :: 't' :: jsonEscape t
    else if c == '\r' then '\\' :: 'r' :: jsonEscape t
    else c :: jsonEscape t

/-- Python `repr` of the two-decimal floats appearing in the data set. -/
def renderFlt (q : ℚ) : List Char :=
  let sgn : List Char := if q < 0 then ['-'] else []
  let c100 := q * 100
  if c100.den = 1 then
    let m := c100.num.natAbs
    let fr := m % 100
    sgn ++ natDigits (m / 100) ++
      '.' :: (if fr % 10 = 0 then natDigits (fr / 10) else pad2 fr)
  else sgn ++ natDigits q.num.natAbs ++ '/' :: natDigits q.den

mutual

/-- Model of `json.dumps` with its default separators. -/
def pyDumps : PyV → List Char
  | .vstr s => '"' :: (jsonEscape s ++ ['"'])
  | .vint i => intChars i
  | .vflt q => renderFlt q
  | .vbool b => if b then "true".toList else "false".toList
  | .vlist xs => '[' :: (List.intercalate (", ".toList) (pyDumpsL xs) ++ [']'])
  | .vdict fs => '{' :: (List.intercalate (", ".toList) (pyDumpsF fs) ++ ['}'])

def pyDumpsL : List PyV → List (List Char)
  | [] => []
  | v :: t => pyDumps v :: pyDumpsL t

def pyDumpsF : List (List Char × PyV) → List (List Char)
  | [] => []
  | kv :: t =>
    ('"' :: (jsonEscape kv.1 ++ ['"']) ++ ": ".toList ++ pyDumps kv.2) :: pyDumpsF t

end

def sqc : Char := Char.ofNat 39

mutual

/-- Python `repr` of a decoded parameter value (single-quoted strings,
capitalized constants; quote-escaping inside strings is elided — the
transcript text is opaque to every claim). -/
def pyReprJson : Json → List Char
  | .null => "None".toList
  | .bool b => if b then "True".toList else "False".toList
  | .num n => intChars n
  | .str s => sqc :: (s ++ [sqc])
  | .arr xs => '[' :: (List.intercalate (", ".toList) (pyReprJsonL xs) ++ [']'])
  | .obj fs => '{' :: (List.intercalate (", ".toList) (pyReprJsonF fs) ++ ['}'])

def pyReprJsonL : List Json → List (List Char)
  | [] => []
  | v :: t => pyReprJson v :: pyReprJsonL t

def pyReprJsonF : List (List Char × Json) → List (List Char)
  | [] => []
  | kv :: t => (sqc :: (kv.1 ++ [sqc]) ++ ": ".toList ++ pyReprJson kv.2) :: pyReprJsonF t

end

/-! ## Tool registry and executor (`react_agent.py`, `execute_tools`)

Each registry entry models `tool(**params)` for one tool: CPython keyword
binding rejects unexpected keywords and missing required arguments with a
`TypeError`, and argument values of the wrong runtime type fail inside the
tool body; both surface here as `.error` with a descriptive message, which is
all `execute_tools` depends on.  Successful calls return the `json.dumps`
rendering of the tool's result. -/

def priceV (q : ℚ) : PyV := if q.den = 1 then .vint q.num else .vflt q

def productToPyV (p : Product) : PyV :=
  PyV.vdict [("name".toList, .vstr p.name), ("color".toList, .vstr p.color),
             ("price".toList, priceV p.price), ("size".toList, .vstr p.size),
             ("in_stock".toList, .vbool p.in_stock), ("store".toList, .vstr p.store),
             ("delivery".toList, .vstr p.delivery)]

/-- A keyword that is not among the tool's parameter names, if any. -/
def unexpectedKey (allowed : List String) (params : List (List Char × Json)) :
    Option (List Char) :=
  (params.find? (fun kv => !(allowed.any (fun a => a.toList == kv.1)))).map Prod.fst

/-- Fetch an optional string-typed keyword (explicit `null` behaves like the
`None` default; a non-string value fails in the tool body). -/
def pickStr (fname k : String) (params : List (List Char × Json)) :
    Except (List Char) (Option (List Char)) :=
  match dictGet params k.toList with
  | none => .ok none
  | some .null => .ok none
  | some (.str s) => .ok (some s)
  | some _ => .error ((fname ++ ": unsupported type for argument " ++ k).toList)

def pickBool (fname k : String) (params : List (List Char × Json)) :
    Except (List Char) (Option Bool) :=
  match dictGet params k.toList with
  | none => .ok none
  | some .null => .ok none
  | some (.bool b) => .ok (some b)
  | some _ => .error ((fname ++ ": unsupported type for argument " ++ k).toList)

/-- The `size` argument is passed through `str()`, so numbers are accepted. -/
def pickSize (params : List (List Char × Json)) :
    Except (List Char) (Option (List Char)) :=
  match dictGet params ("size".toList) with
  | none => .ok none
  | some .null => .ok none
  | some (.str s) => .ok (some s)
  | some (.num n) => .ok (some (intChars n))
  | some _ => .error ("eccomerce_search_aggregtor: unsupported type for argument size".toList)

/-- The `price_range` argument: JSON numbers and strings map to the
corresponding runtime types; a boolean is an `int` in Python; an empty array
is falsy, so the filter is skipped exactly as for an absent argument; any
other truthy non-number, non-string value reaches `price_query.lower()` and
raises `AttributeError`. -/
def pickPR (params : List (List Char × Json)) :
    Except (List Char) (Option PriceQuery) :=
  match dictGet params ("price_range".toList) with
  | none => .ok none
  | some .null => .ok none
  | some (.num n) => .ok (some (.num (n : ℚ)))
  | some (.bool b) => .ok (some (.num (if b then 1 else 0)))
  | some (.str s) => .ok (some (.str s))
  | some (.arr []) => .ok none
  | some _ => .error ("AttributeError: object has no attribute lower".toList)

def searchKeys : List String :=
  ["name", "color", "price_range", "size", "in_stock", "store", "delivery"]

def tool_search (_now : Now) (params : List (List Char × Json)) :
    Except (List Char) (List Char) :=
  match unexpectedKey searchKeys params with
  | some k => .error
      ("eccomerce_search_aggregtor() got an unexpected keyword argument ".toList ++ k)
  | none => do
    let name ← pickStr ("eccomerce_search_aggregtor") ("name") params
    let color ← pickStr ("eccomerce_search_aggregtor") ("color") params
    let pr ← pickPR params
    let size ← pickSize params
    let in_stock ← pickBool ("eccomerce_search_aggregtor") ("in_stock") params
    let store ← pickStr ("eccomerce_search_aggregtor") ("store") params
    let deliv ← pickStr ("eccomerce_search_aggregtor") ("delivery") params
    .ok (pyDumps (PyV.vlist
      ((eccomerce_search_aggregtor name color pr size in_stock store deliv).map productToPyV)))

def tool_shipping (now : Now) (params : List (List Char × Json)) :
    Except (List Char) (List Char) :=
  match unexpectedKey ["product_name", "delivery_target", "zip_code"] params with
  | some k => .error
      ("shipping_time_estimator() got an unexpected keyword argument ".toList ++ k)
  | none =>
    match dictGet params ("product_name".toList) with
    | some (.str pn) => do
      let dt ← pickStr ("shipping_time_estimator") ("delivery_target") params
      let z ← pickStr ("shipping_time_estimator") ("zip_code") params
      match shipping_time_estimator pn dt z now with
      | .ok v => .ok (pyDumps v)
      | .error e => .error e
    | some _ => .error ("shipping_time_estimator: unsupported type for argument product_name".toList)
    | none => .error
        ("shipping_time_estimator() missing 1 required positional argument: product_name".toList)

def tool_discount (_now : Now) (params : List (List Char × Json)) :
    Except (List Char) (List Char) :=
  match unexpectedKey ["product_name"] params with
  | some k => .error
      ("discount_promo_checker() got an unexpected keyword argument ".toList ++ k)
  | none =>
    match dictGet params ("product_name".toList) with
    | some (.str pn) => .ok (pyDumps (PyV.vdict
        ((discount_promo_checker pn).map (fun kv => (kv.1, PyV.vint kv.2)))))
    | some _ => .error ("discount_promo_checker: unsupported type for argument product_name".toList)
    | none => .error
        ("discount_promo_checker() missing 1 required positional argument: product_name".toList)

def tool_policy (_now : Now) (params : List (List Char × Json)) :
    Except (List Char) (List Char) :=
  match unexpectedKey ["store_name"] params with
  | some k => .error
      ("return_policy_checker() got an unexpected keyword argument ".toList ++ k)
  | none =>
    match dictGet params ("store_name".toList) with
    | some (.str sn) => .ok (pyDumps (return_policy_checker sn))
    | some _ => .error ("return_policy_checker: unsupported type for argument store_name".toList)
    | none => .error
        ("return_policy_checker() missing 1 required positional argument: store_name".toList)

def tool_compare (_now : Now) (params : List (List Char × Json)) :
    Except (List Char) (List Char) :=
  match unexpectedKey ["product_name"] params with
  | some k => .error
      ("competitor_price_comparison() got an unexpected keyword argument ".toList ++ k)
  | none =>
    match dictGet params ("product_name".toList) with
    | some (.str pn) => .ok (pyDumps (PyV.vlist (competitor_price_comparison pn)))
    | some _ => .error ("competitor_price_comparison: unsupported type for argument product_name".toList)
    | none => .error
        ("competitor_price_comparison() missing 1 required positional argument: product_name".toList)

/-- The tool registry of `execute_tools`, in source order. -/
def tool_mapping :
    List (List Char × (Now → List (List Char × Json) → Except (List Char) (List Char))) :=
  [("eccomerce_search_aggregtor".toList, tool_search),
   ("shipping_time_estimator".toList, tool_shipping),
   ("discount_promo_checker".toList, tool_discount),
   ("return_policy_checker".toList, tool_policy),
   ("competitor_price_comparison".toList, tool_compare)]

/-- The fields of a decoded parameter object (the action grammar's captures
always decode to objects). -/
def jsonFields : Json → List (List Char × Json)
  | .obj fs => fs
  | _ => []

/-- The function `execute_tools` from `react_agent.py` (identical in the self-critique
variant): dispatch on the registry, catch every tool exception as an
`"Error executing …"` string, and answer unregistered names with an
`"Unknown tool: …"` string.  Total by construction — no input can make it
raise. -/
def execute_tools (now : Now) (tool_name : List Char) (params : Json) : List Char :=
  match dictGet tool_mapping tool_name with
  | some f =>
    (match f now (jsonFields params) with
     | .ok r => r
     | .error e => "Error executing ".toList ++ tool_name ++ ": ".toList ++ e)
  | none => "Unknown tool: ".toList ++ tool_name

/-! ## The reasoning loop (`react_agent.py`, `react_loop`)

The completion client is an external collaborator: a function from the
current conversation context to an optional response text (`None` models a
failed call).  The loop returns the final answer text together with the
number of model calls issued and the sequence of executed tool calls, so the
claims about rounds and executions can be stated directly. -/

def MAX_ITERATIONS : Nat := 5

/-- The accumulated `observations` string for one round's tool calls. -/
def observationsOf (now : Now) (calls : List (List Char × Json)) : List Char :=
  (calls.map (fun c =>
    "\nTool: ".toList ++ c.1 ++ "\nParameters: ".toList ++ pyReprJson c.2 ++
    "\nObservation: ".toList ++ execute_tools now c.1 c.2 ++ "\n".toList)).flatten

/-- The text appended to the conversation context after one round. -/
def assistantBlock (now : Now) (resp : List Char) : List Char :=
  "\nAssistant: ".toList ++ resp ++ "\nObservations: ".toList ++
    observationsOf now (parse_tool_calls resp) ++ "\n".toList

/-- One unrolling of the `for _ in range(MAX_ITERATIONS)` body.  A `None` or
empty response (`if not llm_response`) returns the fixed error text; a
response with no parsed calls is returned verbatim; otherwise the calls are
executed in order, the context grows by the assistant block, and the loop
continues.  When the fuel is exhausted the last response is returned. -/
def reactLoopAux (now : Now) (client : List Char → Option (List Char)) :
    Nat → List Char → List Char → List Char × Nat × List (List Char × Json)
  | 0, _, last => (last, 0, [])
  | fuel + 1, ctx, _ =>
    match client ctx with
    | none => ("Error: Failed to get LLM response".toList, 1, [])
    | some resp =>
      if resp = [] then ("Error: Failed to get LLM response".toList, 1, [])
      else
        let calls := parse_tool_calls resp
        let ctx2 := ctx ++ assistantBlock now resp
        if calls.isEmpty then (resp, 1, [])
        else
          match reactLoopAux now client fuel ctx2 resp with
          | (ans, k, log) => (ans, k + 1, calls ++ log)

def initCtx (query : List Char) : List Char :=
  "User Query: ".toList ++ query ++ "\n".toList

/-- The function `react_loop` from `react_agent.py`. -/
def react_loop (now : Now) (client : List Char → Option (List Char))
    (query : List Char) : List Char × Nat × List (List Char × Json) :=
  reactLoopAux now client MAX_ITERATIONS (initCtx query) []

/-- The context after one successful round (how `conversation_context`
evolves when the response produced tool calls). -/
def stepCtx (now : Now) (client : List Char → Option (List Char))
    (ctx : List Char) : List Char :=
  match client ctx with
  | none => ctx
  | some resp => ctx ++ assistantBlock now resp

/-- The model response text of round `k + 1` (0-based `k`), for stating the
budget-exhaustion claim. -/
def respAt (now : Now) (client : List Char → Option (List Char))
    (ctx : List Char) (k : Nat) : List Char :=
  (client ((stepCtx now client)^[k] ctx)).getD []

/-! ## A generating family of model texts

The universal parser claims quantify over texts built from well-formed action
spans: arbitrary separator text (free of the marker-opening bracket),
arbitrary word-run tool names, arbitrary whitespace after the comma, and
arbitrary object bodies (newlines included) that do not contain the closer
`}]]` before their end. -/

/-- One action span together with the free text preceding it: the span
rendered is `[[CALL <name>,<ws>{<body>}]]`. -/
structure SpanSrc where
  sep : List Char
  name : List Char
  ws : List Char
  body : List Char

/-- The parameter-object literal of a span, braces included — exactly the
regex's second capture group. -/
def litOf (q : SpanSrc) : List Char := '{' :: (q.body ++ ['}'])

/-- The rendered text of one span (without its leading separator). -/
def mkSpan (q : SpanSrc) : List Char :=
  "[[CALL ".toList ++
    (q.name ++ ',' :: (q.ws ++ '{' :: (q.body ++ '}' :: ']' :: ']' :: [])))

/-- A full model text: separators interleaved with spans, then trailing
text. -/
def renderText : List SpanSrc → List Char → List Char
  | [], tail => tail
  | q :: rest, tail => q.sep ++ (mkSpan q ++ renderText rest tail)

/-- Well-formedness of one span in its context: the separator cannot open a
marker, the name is a nonempty word run, the gap is whitespace, and the body
does not contain the closer early. -/
def goodSpan (q : SpanSrc) : Prop :=
  '[' ∉ q.sep ∧ q.name ≠ [] ∧ (∀ c ∈ q.name, isWordChar c = true) ∧
    (∀ c ∈ q.ws, pyIsSpace c = true) ∧ hasStop q.body = false

/-- A fixed reference instant for the closed evaluations: Monday,
2026-10-12, mid-morning. -/
def now0 : Now := ⟨⟨2026, 10, 12⟩, 37230⟩

/-! ## Helper lemmas -/

theorem dictGet_eq_none {α : Type} (d : List (List Char × α)) (k : List Char)
    (h : k ∉ d.map Prod.fst) : dictGet d k = none := by
  induction d with
  | nil => rfl
  | cons kv t ih =>
    obtain ⟨k', v⟩ := kv
    simp only [List.map_cons, List.mem_cons] at h
    push_neg at h
    simp [dictGet, h.1, ih h.2]

/-! ## Claim theorems -/

/-- C1 (code bug): the spec promises that
`estimate_shipping("White Sneakers", delivery_target="friday")` returns a
`can_deliver` verdict comparing today plus the store's lead time against the
upcoming Friday, with a store-level "default" fallback for unlisted ZIPs.  In
the source, every real product's `shipping_info` store entry is a flat
`{"estimated_delivery", "cost"}` dict with neither per-ZIP keys nor a
"default" key (only the orphan "Summer Floral Skirt" key has that layout), so
the lookup `store_shipping.get(zip_code, store_shipping.get("default", {}))`
yields `{}` for every queried ZIP — and for no ZIP at all — and the function
answers with an error dict instead of a feasibility verdict. -/
theorem shipping_white_sneakers_friday_errors :
    shipping_time_estimator ("White Sneakers".toList) (some ("friday".toList)) none now0
      = .ok (PyV.vdict [("error".toList,
          PyV.vstr ("Shipping not available to ZIP code None".toList))]) ∧
    shipping_time_estimator ("White Sneakers".toList) (some ("friday".toList))
        (some ("12345".toList)) now0
      = .ok (PyV.vdict [("error".toList,
          PyV.vstr ("Shipping not available to ZIP code 12345".toList))]) := ⟨rfl, rfl⟩

/-- C3 (code bug): the requested-date resolution checks the ordinal suffixes
with a substring test, and the weekday names "monday"/"sunday" (contain "nd"),
"thursday" (contains "th") and "saturday" (contains "rd") are therefore sent
down the ordinal branch, where `int('')` raises and the function returns the
invalid-date error instead of the next occurrence of that weekday.  Weekday
names without such a substring ("friday" here, from Monday 2026-10-12) do
resolve to the next occurrence strictly after today, as the claim states. -/
theorem delivery_feasibility_weekday_misparse :
    calculate_delivery_feasibility 2 ("monday".toList) now0
      = PyV.vdict [("error".toList, PyV.vstr ("Invalid date specified".toList))] ∧
    calculate_delivery_feasibility 2 ("thursday".toList) now0
      = PyV.vdict [("error".toList, PyV.vstr ("Invalid date specified".toList))] ∧
    calculate_delivery_feasibility 2 ("saturday".toList) now0
      = PyV.vdict [("error".toList, PyV.vstr ("Invalid date specified".toList))] ∧
    calculate_delivery_feasibility 2 ("sunday".toList) now0
      = PyV.vdict [("error".toList, PyV.vstr ("Invalid date specified".toList))] ∧
    calculate_delivery_feasibility 2 ("friday".toList) now0
      = PyV.vdict [("can_deliver".toList, PyV.vbool true),
                   ("estimated_delivery".toList, PyV.vstr ("Wednesday, October 14".toList)),
                   ("requested_date".toList, PyV.vstr ("Friday, October 16".toList))] :=
  ⟨rfl, rfl, rfl, rfl, rfl⟩

/-- C9: `return_policy_checker("SiteB")` returns exactly the fixed SiteB
policy fields, and `return_policy_checker("Cocktail Dress")` — not a store
name — resolves through the product search to that product's store (SiteB)
and returns the same dict. -/
theorem return_policy_checker_siteB_and_product :
    return_policy_checker ("SiteB".toList) = PyV.vdict
      [("window".toList, PyV.vstr ("14 days".toList)),
       ("free_returns".toList, PyV.vbool false),
       ("conditions".toList, PyV.vstr ("Return shipping fee applies".toList)),
       ("processing_time".toList, PyV.vstr ("5-7 business days".toList))] ∧
    return_policy_checker ("Cocktail Dress".toList) = PyV.vdict
      [("window".toList, PyV.vstr ("14 days".toList)),
       ("free_returns".toList, PyV.vbool false),
       ("conditions".toList, PyV.vstr ("Return shipping fee applies".toList)),
       ("processing_time".toList, PyV.vstr ("5-7 business days".toList))] := ⟨rfl, rfl⟩

/-- C10: `discount_promo_checker` is an exact, case-sensitive dict lookup:
every key of the table returns its fixed code-to-percent mapping, every
non-key — including the case variant "floral skirt" — returns the empty
mapping. -/
theorem discount_promo_checker_exact :
    (∀ s m, (s, m) ∈ discounts → discount_promo_checker s = m) ∧
    (∀ s, s ∉ discounts.map Prod.fst → discount_promo_checker s = []) ∧
    discount_promo_checker ("floral skirt".toList) = [] := by
  refine ⟨?_, ?_, rfl⟩
  · intro s m h
    fin_cases h <;> rfl
  · intro s h
    simp [discount_promo_checker, dictGet_eq_none discounts s h]

theorem discount_promo_checker_exact_witness :
    discount_promo_checker ("White Sneakers".toList)
      = [("SHOES15".toList, 15), ("NEW10".toList, 10)] :=
  discount_promo_checker_exact.1 _ _ (by decide)

/-- C2: `execute_tools` is total — it returns a string for every tool name
and parameter value.  A name outside the registry yields the descriptive
unknown-tool string; a registered tool that raises yields the
`"Error executing <name>: <cause>"` string; a successful tool call's result is
passed through. -/
theorem execute_tools_contract (now : Now) (tool_name : List Char) (params : Json) :
    (dictGet tool_mapping tool_name = none →
      execute_tools now tool_name params = "Unknown tool: ".toList ++ tool_name) ∧
    (∀ f, dictGet tool_mapping tool_name = some f →
      (∀ e, f now (jsonFields params) = .error e →
        execute_tools now tool_name params
          = "Error executing ".toList ++ tool_name ++ ": ".toList ++ e) ∧
      (∀ r, f now (jsonFields params) = .ok r →
        execute_tools now tool_name params = r)) := by
  refine ⟨fun h => ?_, fun f hf => ⟨fun e he => ?_, fun r hr => ?_⟩⟩
  · simp [execute_tools, h]
  · simp [execute_tools, hf, he]
  · simp [execute_tools, hf, hr]

theorem execute_tools_contract_witness :
    execute_tools now0 ("telepathy".toList) (Json.obj [])
      = "Unknown tool: ".toList ++ "telepathy".toList :=
  (execute_tools_contract now0 ("telepathy".toList) (Json.obj [])).1 rfl

/-- C8 (counterexample): the claim says a bare number `n` returns exactly the
records with `0 ≤ price ≤ n`.  At `n = 0` the Python guard `if price_range:`
is false (0 is falsy), the price filter is skipped entirely, and the search
returns all nine records — while the claimed set is empty. -/
theorem search_price_zero_counterexample :
    eccomerce_search_aggregtor none none (some (.num 0)) none none none none = products ∧
    products.filter (fun p => decide ((0:ℚ) ≤ p.price) && decide (p.price ≤ (0:ℚ))) = [] ∧
    products ≠ [] := ⟨rfl, by decide, by decide⟩

/-- C8 (amended): a 2-tuple `(lo, hi)` returns exactly the records with
`lo ≤ price ≤ hi`; a bare *nonzero* number `n` returns exactly the records
with `0 ≤ price ≤ n`; the text "under 70" returns exactly the records with
`0 ≤ price ≤ 70`; *nonempty* unparseable free text yields no matches; and the
falsy arguments the counterexample exposes — the bare number `0` (and
likewise the empty string) — bypass the price filter entirely, returning all
records. -/
theorem search_price_range_amended :
    (∀ lo hi : ℚ,
      eccomerce_search_aggregtor none none (some (.tup lo hi)) none none none none
        = products.filter (fun p => decide (lo ≤ p.price) && decide (p.price ≤ hi))) ∧
    (∀ n : ℚ, n ≠ 0 →
      eccomerce_search_aggregtor none none (some (.num n)) none none none none
        = products.filter (fun p => decide ((0:ℚ) ≤ p.price) && decide (p.price ≤ n))) ∧
    (eccomerce_search_aggregtor none none (some (.str ("under 70".toList))) none none none none
        = products.filter (fun p => decide ((0:ℚ) ≤ p.price) && decide (p.price ≤ (70:ℚ)))) ∧
    (∀ s, s ≠ [] → parse_price_range (.str s) = none →
      eccomerce_search_aggregtor none none (some (.str s)) none none none none = []) ∧
    (eccomerce_search_aggregtor none none (some (.num 0)) none none none none = products ∧
      eccomerce_search_aggregtor none none (some (.str [])) none none none none = products) := by
  refine ⟨?_, ?_, by decide, ?_, rfl, rfl⟩
  · intro lo hi
    unfold eccomerce_search_aggregtor
    refine List.filter_congr ?_
    intro p _
    simp [matchesName, matchesColor, matchesSize, matchesPrice, matchesStore,
      matchesStock, pqFalsy, parse_price_range]
  · intro n hn
    unfold eccomerce_search_aggregtor
    refine List.filter_congr ?_
    intro p _
    simp [matchesName, matchesColor, matchesSize, matchesPrice, matchesStore,
      matchesStock, pqFalsy, parse_price_range, hn]
  · intro s hs hp
    unfold eccomerce_search_aggregtor
    rw [List.filter_eq_nil_iff]
    intro p _
    simp [matchesName, matchesColor, matchesSize, matchesPrice, matchesStore,
      matchesStock, pqFalsy, hp, List.isEmpty_iff, hs]

theorem search_price_range_amended_witness :
    (70:ℚ) ≠ 0 ∧
    eccomerce_search_aggregtor none none (some (.num 70)) none none none none
      = products.filter (fun p => decide ((0:ℚ) ≤ p.price) && decide (p.price ≤ (70:ℚ))) :=
  ⟨by norm_num, search_price_range_amended.2.1 70 (by norm_num)⟩

/-! ## Scanner lemmas (towards the parser claims) -/

theorem dropLit_self (p s : List Char) : dropLit p (p ++ s) = some s := by
  induction p with
  | nil => rfl
  | cons c ps ih => simp [dropLit, ih]

theorem takeWhile_all_append {p : Char → Bool} {a : List Char} (x : Char) (t : List Char)
    (ha : ∀ c ∈ a, p c = true) (hx : p x = false) :
    (a ++ x :: t).takeWhile p = a ∧ (a ++ x :: t).dropWhile p = x :: t := by
  induction a with
  | nil => simp [List.takeWhile, List.dropWhile, hx]
  | cons c a ih =>
    have hc := ha c (by simp)
    have ih2 := ih (fun d hd => ha d (by simp [hd]))
    simp [List.takeWhile, List.dropWhile, hc, ih2.1, ih2.2]

theorem stopHere_true_shape {l : List Char} (h : stopHere l = true) :
    ∃ r, l = '}' :: ']' :: ']' :: r := by
  match l with
  | [] => simp [stopHere] at h
  | [a] => simp [stopHere] at h
  | [a, b] => simp [stopHere] at h
  | a :: b :: c :: r =>
    simp only [stopHere, Bool.and_eq_true, beq_iff_eq] at h
    exact ⟨r, by rw [h.1.1, h.1.2, h.2]⟩

theorem findBody_noStop {body : List Char} (rest : List Char) (h : hasStop body = false) :
    findBody (body ++ '}' :: ']' :: ']' :: rest) = some (body, rest) := by
  induction body with
  | nil => simp [findBody, stopHere, List.drop]
  | cons c b ih =>
    simp only [hasStop, Bool.or_eq_false_iff] at h
    obtain ⟨h1, h2⟩ := h
    have hstop : stopHere (c :: (b ++ '}' :: ']' :: ']' :: rest)) = false := by
      match b with
      | [] => simp [stopHere]
      | [x] => simp [stopHere]
      | x :: y :: b2 => simpa [stopHere] using h1
    have e : (c :: b) ++ '}' :: ']' :: ']' :: rest = c :: (b ++ '}' :: ']' :: ']' :: rest) := rfl
    rw [e]
    unfold findBody
    rw [if_neg (by simp [hstop]), ih h2]

theorem headerChars : "[[CALL ".toList = '[' :: '[' :: 'C' :: 'A' :: 'L' :: 'L' :: ' ' :: [] := rfl

theorem tryMatch_mkSpan (q : SpanSrc) (rest : List Char) (hn : q.name ≠ [])
    (hw : ∀ c ∈ q.name, isWordChar c = true) (hws : ∀ c ∈ q.ws, pyIsSpace c = true)
    (hb : hasStop q.body = false) :
    tryMatch (mkSpan q ++ rest) = some (q.name, litOf q, rest) := by
  have hcomma : isWordChar ',' = false := rfl
  have hbrace : pyIsSpace '{' = false := rfl
  have e1 : mkSpan q ++ rest
      = "[[CALL ".toList ++
        (q.name ++ ',' :: (q.ws ++ '{' :: (q.body ++ '}' :: ']' :: ']' :: rest))) := by
    simp [mkSpan, List.append_assoc]
  have h1 := takeWhile_all_append (p := isWordChar)
    (a := q.name) ',' (q.ws ++ '{' :: (q.body ++ '}' :: ']' :: ']' :: rest)) hw hcomma
  have h2 := takeWhile_all_append (p := pyIsSpace)
    (a := q.ws) '{' (q.body ++ '}' :: ']' :: ']' :: rest) hws hbrace
  unfold tryMatch
  rw [e1, dropLit_self]
  simp [h1.1, h1.2, h2.2, if_neg hn, findBody_noStop rest hb, litOf]

theorem tryMatch_none_head {c : Char} (t : List Char) (h : c ≠ '[') :
    tryMatch (c :: t) = none := by
  have hc : (c == '[') = false := by simpa using h
  simp [tryMatch, headerChars, dropLit, hc]

theorem dropLit_length {p : List Char} : ∀ {s r : List Char}, dropLit p s = some r →
    r.length + p.length = s.length := by
  induction p with
  | nil => intro s r h; simp [dropLit] at h; simp [h]
  | cons c ps ih =>
    intro s r h
    cases s with
    | nil => simp [dropLit] at h
    | cons x xs =>
      by_cases hx : x == c
      · simp only [dropLit, hx, if_true] at h
        have := ih h
        simp [List.length_cons]
        omega
      · simp [dropLit, hx] at h

theorem findBody_length : ∀ {l inner rest : List Char}, findBody l = some (inner, rest) →
    rest.length + inner.length + 3 = l.length := by
  intro l
  induction l with
  | nil => intro inner rest h; simp [findBody] at h
  | cons c t ih =>
    intro inner rest h
    simp only [findBody] at h
    by_cases hs : stopHere (c :: t) = true
    · rw [if_pos hs] at h
      injection h with h'
      obtain ⟨h1, h2⟩ := Prod.mk.inj h'
      obtain ⟨r, hr⟩ := stopHere_true_shape hs
      injection hr with hc ht
      subst ht
      simp [← h1, ← h2, List.length_cons]
    · rw [if_neg hs] at h
      cases hfb : findBody t with
      | none => rw [hfb] at h; simp at h
      | some p =>
        obtain ⟨i2, r2⟩ := p
        rw [hfb] at h
        simp only [Option.some.injEq, Prod.mk.injEq] at h
        obtain ⟨h1, h2⟩ := h
        have hlen := ih hfb
        simp [← h1, ← h2, List.length_cons]
        omega

theorem tryMatch_rest_lt : ∀ {s nm ps rest : List Char},
    tryMatch s = some (nm, ps, rest) → rest.length < s.length := by
  intro s nm ps rest h
  unfold tryMatch at h
  cases hd : dropLit ("[[CALL ".toList) s with
  | none => rw [hd] at h; simp at h
  | some r0 =>
    rw [hd] at h
    dsimp only at h
    by_cases hw : List.takeWhile isWordChar r0 = []
    · rw [if_pos hw] at h; simp at h
    · rw [if_neg hw] at h
      have l0 : r0.length + 7 = s.length := by
        have := dropLit_length hd
        simpa [headerChars] using this
      cases hdw : List.dropWhile isWordChar r0 with
      | nil => rw [hdw] at h; simp at h
      | cons x r2 =>
        rw [hdw] at h
        dsimp only at h
        have l1 : r2.length + 1 ≤ r0.length := by
          have e := congrArg List.length hdw
          have hle := congrArg List.length (List.takeWhile_append_dropWhile isWordChar r0)
          rw [List.length_append] at hle
          simp at e
          omega
        by_cases hx : x = ','
        · rw [if_pos hx] at h
          cases hds : List.dropWhile pyIsSpace r2 with
          | nil => rw [hds] at h; simp at h
          | cons y r4 =>
            rw [hds] at h
            dsimp only at h
            have l2 : r4.length + 1 ≤ r2.length := by
              have e := congrArg List.length hds
              have hle := congrArg List.length (List.takeWhile_append_dropWhile pyIsSpace r2)
              rw [List.length_append] at hle
              simp at e
              omega
            by_cases hy : y = '{'
            · rw [if_pos hy] at h
              cases hfb : findBody r4 with
              | none => rw [hfb] at h; simp at h
              | some p =>
                obtain ⟨inner, r5⟩ := p
                rw [hfb] at h
                simp only [Option.some.injEq, Prod.mk.injEq] at h
                obtain ⟨-, -, hrest⟩ := h
                subst hrest
                have l3 := findBody_length hfb
                omega
            · rw [if_neg hy] at h; simp at h
        · rw [if_neg hx] at h; simp at h

theorem scanAux_congr : ∀ (f1 f2 : Nat) (s : List Char), s.length ≤ f1 → s.length ≤ f2 →
    scanAux f1 s = scanAux f2 s := by
  intro f1
  induction f1 with
  | zero =>
    intro f2 s h1 h2
    have hs : s = [] := List.length_eq_zero.mp (Nat.le_zero.mp h1)
    subst hs
    cases f2 <;> rfl
  | succ n ih =>
    intro f2 s h1 h2
    cases s with
    | nil => cases f2 <;> rfl
    | cons c t =>
      cases f2 with
      | zero => simp at h2
      | succ m =>
        simp only [scanAux]
        cases hm : tryMatch (c :: t) with
        | none => exact ih m t (by simpa using h1) (by simpa using h2)
        | some res =>
          obtain ⟨nm, ps, rem⟩ := res
          have hlt := tryMatch_rest_lt hm
          simp only [List.length_cons] at h1 h2 hlt
          dsimp only
          rw [ih m rem (by omega) (by omega)]

theorem findall_of_tryMatch {s nm ps rem : List Char} (h : tryMatch s = some (nm, ps, rem)) :
    findall s = (nm, ps) :: findall rem := by
  cases s with
  | nil => simp [tryMatch, dropLit, headerChars] at h
  | cons c t =>
    have hlt := tryMatch_rest_lt h
    simp only [List.length_cons] at hlt
    simp only [findall, List.length_cons, scanAux, h]
    rw [scanAux_congr t.length rem.length rem (by omega) le_rfl]

theorem findall_cons_not_open {c : Char} (t : List Char) (h : c ≠ '[') :
    findall (c :: t) = findall t := by
  have hm := tryMatch_none_head t h
  simp [findall, List.length_cons, scanAux, hm]

theorem findall_append_sep (sep rest : List Char) (h : ∀ c ∈ sep, c ≠ '[') :
    findall (sep ++ rest) = findall rest := by
  induction sep with
  | nil => simp
  | cons c t ih =>
    rw [List.cons_append, findall_cons_not_open _ (h c (by simp)),
      ih (fun d hd => h d (by simp [hd]))]

theorem findall_no_open (tail : List Char) (h : ∀ c ∈ tail, c ≠ '[') : findall tail = [] := by
  induction tail with
  | nil => rfl
  | cons c t ih =>
    rw [findall_cons_not_open _ (h c (by simp))]
    exact ih (fun d hd => h d (by simp [hd]))

theorem findall_renderText (spans : List SpanSrc) (tail : List Char)
    (hs : ∀ q ∈ spans, goodSpan q) (ht : ∀ c ∈ tail, c ≠ '[') :
    findall (renderText spans tail) = spans.map (fun q => (q.name, litOf q)) := by
  induction spans with
  | nil => simpa [renderText] using findall_no_open tail ht
  | cons q rest ih =>
    obtain ⟨h1, h2, h3, h4, h5⟩ := hs q (by simp)
    rw [renderText, findall_append_sep _ _ (fun c hc heq => h1 (heq ▸ hc)),
      findall_of_tryMatch (tryMatch_mkSpan q _ h2 h3 h4 h5),
      ih (fun p hp => hs p (by simp [hp]))]
    rfl

theorem parse_tool_calls_renderText (spans : List SpanSrc) (tail : List Char)
    (hs : ∀ q ∈ spans, goodSpan q) (ht : ∀ c ∈ tail, c ≠ '[') :
    parse_tool_calls (renderText spans tail)
      = spans.filterMap (fun q => (json_loads (litOf q)).map (fun v => (q.name, v))) := by
  unfold parse_tool_calls
  rw [findall_renderText spans tail hs ht, List.filterMap_map]
  rfl

/-- C6: for every model text built from well-formed action spans —
separators free of the marker bracket, word-run tool names, whitespace after
the comma (newlines allowed inside the object literal), object bodies that do
not close early — whose parameter literals all decode, `parse_tool_calls`
returns exactly the `(name, decoded parameters)` pairs of those spans, with
the literal between the markers decoded unchanged and the text order
preserved. -/
theorem parse_tool_calls_wellformed (spans : List SpanSrc) (tail : List Char)
    (hs : ∀ q ∈ spans, goodSpan q) (ht : ∀ c ∈ tail, c ≠ '[')
    (hj : ∀ q ∈ spans, (json_loads (litOf q)).isSome = true) :
    parse_tool_calls (renderText spans tail)
      = spans.map (fun q => (q.name, (json_loads (litOf q)).getD Json.null)) := by
  rw [parse_tool_calls_renderText spans tail hs ht]
  clear hs ht
  induction spans with
  | nil => rfl
  | cons q rest ih =>
    have hq := hj q (by simp)
    obtain ⟨v, hv⟩ := Option.isSome_iff_exists.mp hq
    rw [List.filterMap_cons, List.map_cons, hv]
    simp only [Option.map_some', Option.getD_some]
    rw [ih (fun p hp => hj p (by simp [hp]))]

theorem parse_tool_calls_wellformed_witness :
    parse_tool_calls (renderText
      [⟨"Action: ".toList, "eccomerce_search_aggregtor".toList, " ".toList,
          "\"name\": \"sneakers\"".toList⟩,
       ⟨"\nNext: ".toList, "discount_promo_checker".toList, " \n ".toList,
          "\"product_name\": \"Floral Skirt\"".toList⟩] ("!".toList))
      = [("eccomerce_search_aggregtor".toList,
            Json.obj [("name".toList, Json.str ("sneakers".toList))]),
         ("discount_promo_checker".toList,
            Json.obj [("product_name".toList, Json.str ("Floral Skirt".toList))])] := by
  rw [parse_tool_calls_wellformed _ _
    (by intro q hq; fin_cases hq <;>
      exact ⟨by decide, by decide, by decide, by decide, by decide⟩)
    (by decide) (by decide)]
  rfl

/-- C7: in a model text mixing well-formed spans with spans whose parameter
literal fails to decode, `parse_tool_calls` keeps — in order — exactly the
spans whose literal decodes and drops the malformed ones, returning (never
raising) for every such text. -/
theorem parse_tool_calls_drops_malformed (spans : List SpanSrc) (tail : List Char)
    (hs : ∀ q ∈ spans, goodSpan q) (ht : ∀ c ∈ tail, c ≠ '[') :
    parse_tool_calls (renderText spans tail)
      = spans.filterMap (fun q => (json_loads (litOf q)).map (fun v => (q.name, v))) :=
  parse_tool_calls_renderText spans tail hs ht

theorem parse_tool_calls_drops_malformed_witness :
    parse_tool_calls (renderText
      [⟨"x ".toList, "a".toList, " ".toList, "oops".toList⟩,
       ⟨" y ".toList, "b".toList, " ".toList, "\"k\": 2".toList⟩] ("!".toList))
      = [("b".toList, Json.obj [("k".toList, Json.num 2)])] := by
  rw [parse_tool_calls_drops_malformed _ _
    (by intro q hq; fin_cases hq <;>
      exact ⟨by decide, by decide, by decide, by decide, by decide⟩)
    (by decide)]
  rfl

/-- C4 (counterexample): an empty model response text is a response from
which the parser extracts zero tool calls, yet the loop does not return it
unchanged — the Python truthiness check `if not llm_response:` routes the
empty string to the fixed client-failure message. -/
theorem react_loop_empty_response_counterexample :
    parse_tool_calls [] = [] ∧
    react_loop now0 (fun _ => some []) ("q".toList)
      = ("Error: Failed to get LLM response".toList, 1, []) := ⟨rfl, rfl⟩

/-- C4 (amended): for every *nonempty* model response text from which the
parser extracts zero tool calls, the loop terminates in that same round —
one model call, no tool executed — and returns that response's text
unchanged; this holds at any round of the loop, and in particular from the
start. -/
theorem react_loop_no_calls_returns_verbatim :
    (∀ (now : Now) (client : List Char → Option (List Char)) (n : Nat)
        (ctx last r : List Char), client ctx = some r → r ≠ [] →
        parse_tool_calls r = [] →
        reactLoopAux now client (n + 1) ctx last = (r, 1, [])) ∧
    (∀ (now : Now) (client : List Char → Option (List Char))
        (query r : List Char), client (initCtx query) = some r → r ≠ [] →
        parse_tool_calls r = [] →
        react_loop now client query = (r, 1, [])) := by
  have base : ∀ (now : Now) (client : List Char → Option (List Char)) (n : Nat)
      (ctx last r : List Char), client ctx = some r → r ≠ [] →
      parse_tool_calls r = [] →
      reactLoopAux now client (n + 1) ctx last = (r, 1, []) := by
    intro now client n ctx last r hc hne hp
    simp [reactLoopAux, hc, hne, hp]
  exact ⟨base, fun now client query r hc hne hp =>
    base now client 4 (initCtx query) [] r hc hne hp⟩

theorem react_loop_no_calls_returns_verbatim_witness :
    react_loop now0 (fun _ => some ("All done.".toList)) ("q".toList)
      = ("All done.".toList, 1, []) :=
  react_loop_no_calls_returns_verbatim.2 now0 _ _ _ rfl (by decide) rfl

theorem reactLoopAux_succ (now : Now) (client : List Char → Option (List Char))
    (fuel : Nat) (ctx last : List Char) :
    reactLoopAux now client (fuel + 1) ctx last
      = match client ctx with
        | none => ("Error: Failed to get LLM response".toList, 1, [])
        | some resp =>
          if resp = [] then ("Error: Failed to get LLM response".toList, 1, [])
          else
            let calls := parse_tool_calls resp
            let ctx2 := ctx ++ assistantBlock now resp
            if calls.isEmpty then (resp, 1, [])
            else
              match reactLoopAux now client fuel ctx2 resp with
              | (ans, k, log) => (ans, k + 1, calls ++ log) := rfl

theorem reactLoopAux_all_calls (now : Now) (client : List Char → Option (List Char))
    (H : ∀ ctx, ∃ r, client ctx = some r ∧ parse_tool_calls r ≠ []) :
    ∀ (fuel : Nat) (ctx last : List Char), ∃ log,
      reactLoopAux now client (fuel + 1) ctx last
        = (respAt now client ctx fuel, fuel + 1, log) := by
  intro fuel
  induction fuel with
  | zero =>
    intro ctx last
    obtain ⟨r, hc, hp⟩ := H ctx
    have hne : r ≠ [] := by
      intro h
      subst h
      exact hp rfl
    refine ⟨parse_tool_calls r, ?_⟩
    have hie : (parse_tool_calls r).isEmpty = false := by
      simpa [List.isEmpty_iff] using hp
    simp [reactLoopAux, hc, hne, hie, respAt, hc]
  | succ n ih =>
    intro ctx last
    obtain ⟨r, hc, hp⟩ := H ctx
    have hne : r ≠ [] := by
      intro h
      subst h
      exact hp rfl
    have hie : (parse_tool_calls r).isEmpty = false := by
      simpa [List.isEmpty_iff] using hp
    obtain ⟨log, hrec⟩ := ih (ctx ++ assistantBlock now r) r
    refine ⟨parse_tool_calls r ++ log, ?_⟩
    have hstep : stepCtx now client ctx = ctx ++ assistantBlock now r := by
      simp [stepCtx, hc]
    have hresp : respAt now client ctx (n + 1)
        = respAt now client (ctx ++ assistantBlock now r) n := by
      simp [respAt, Function.iterate_succ_apply, hstep]
    rw [reactLoopAux_succ, hc]
    simp only [if_neg hne, hie, Bool.false_eq_true, if_false, hrec, hresp]

/-- C5: when every model response the client produces contains at least one
parseable tool call, the loop issues exactly `MAX_ITERATIONS = 5` model calls
and returns the fifth round's model response text — the budget result, not an
error. -/
theorem react_loop_budget_exhaustion (now : Now)
    (client : List Char → Option (List Char)) (query : List Char)
    (H : ∀ ctx, ∃ r, client ctx = some r ∧ parse_tool_calls r ≠ []) :
    ∃ log, react_loop now client query
      = (respAt now client (initCtx query) 4, 5, log) :=
  reactLoopAux_all_calls now client H 4 (initCtx query) []

theorem react_loop_budget_exhaustion_witness :
    ∃ log, react_loop now0 (fun _ => some ("[[CALL ping, \x7b\x7d]]".toList)) ("hi".toList)
      = ("[[CALL ping, \x7b\x7d]]".toList, 5, log) :=
  react_loop_budget_exhaustion now0 _ _ (fun ctx =>
    ⟨"[[CALL ping, \x7b\x7d]]".toList, rfl, by
      have h : parse_tool_calls ("[[CALL ping, \x7b\x7d]]".toList)
          = [("ping".toList, Json.obj [])] := rfl
      intro hcontra
      exact absurd (h.symm.trans hcontra) (by simp)⟩)
